import Mathlib

/-!
Verification development for the multi-strategy content crawler
(`scraper/content_crawler.py`).  The Python class `ContentCrawler` is
shallowly embedded here: pure helpers become Lean functions, the mutable
crawler state (`visited_urls`, `content_urls`) becomes an explicit
`CrawlState` record threaded through the functions, and external effects
(HTTP fetches, rendered documents, feed bodies) become function
parameters.  Retrieval strategies are modelled by their observable
interface: given the current crawl state they either raise or return a
set of URL strings, together with the visited set as they leave it
(the source strategies mutate crawler state only through
`_is_valid_content_url`, which touches only `visited_urls`).
-/

/-! ## String helpers

Character-list level utilities standing in for the Python string and
`urllib.parse` operations the crawler uses.  `urljoin` and `netloc`
model `urllib.parse.urljoin` / `urlparse(...).netloc` restricted to the
hierarchical http(s)-style URLs the crawler feeds them (no dot-segment
normalization, no query/fragment splitting, no mailto-style schemes). -/

def seqStarts : List Char → List Char → Bool
  | _, [] => true
  | [], _ :: _ => false
  | a :: as, b :: bs => a == b && seqStarts as bs

def seqHas : List Char → List Char → Bool
  | [], needle => seqStarts [] needle
  | c :: cs, needle => seqStarts (c :: cs) needle || seqHas cs needle

/-- Model of the Python substring test `needle in hay`. -/
def strContains (hay needle : String) : Bool :=
  seqHas hay.toList needle.toList

/-- Model of Python `hay.startswith(pre)`. -/
def strStarts (hay pre : String) : Bool :=
  seqStarts hay.toList pre.toList

/-- Model of Python `s.lower()` (ASCII inputs). -/
def lowerStr (s : String) : String :=
  String.mk (s.toList.map Char.toLower)

/-- Strip `marker` from the front of `rest`; `none` if it is not a prefix. -/
def afterMarker : List Char → List Char → Option (List Char)
  | [], r => some r
  | _ :: _, [] => none
  | m :: ms, r :: rs => if m == r then afterMarker ms rs else none

/-- The `[^excl]+$` part of the crawler's regexes: nonempty and free of `excl`. -/
def tailFree (excl : Char) (t : List Char) : Bool :=
  !t.isEmpty && t.all (fun c => c != excl)

/-- Search for an occurrence of `marker` followed by a nonempty,
`excl`-free run extending to the end of the string: the semantics of
`re.search(marker + "[^excl]+$", s)` for the crawler's literal markers. -/
def patScan (marker : List Char) (excl : Char) : List Char → Bool
  | [] => false
  | c :: cs =>
    (match afterMarker marker (c :: cs) with
     | some t => tailFree excl t
     | none => false) || patScan marker excl cs

/-- The URL regexes appearing in the source all have the shape
`marker[^x]+$` (with `x` either `/` or `#`), embedded as data. -/
inductive Pat
  | segEnd (marker : String) (excl : Char)
deriving DecidableEq

/-- Model of `re.search(pattern, s)` returning whether a match exists. -/
def patMatch (p : Pat) (s : String) : Bool :=
  match p with
  | Pat.segEnd m e => patScan m.toList e s.toList

/-- Split a URL at the first `"://"`: scheme and remainder. -/
def schemeSplit : List Char → Option (List Char × List Char)
  | [] => none
  | c :: cs =>
    if seqStarts (c :: cs) (String.toList "://") then some ([], (c :: cs).drop 3)
    else
      match schemeSplit cs with
      | some (sch, rest) => some (c :: sch, rest)
      | none => none

/-- Model of `urllib.parse.urlparse(url).netloc` for http(s)-style URLs. -/
def netloc (url : String) : String :=
  match schemeSplit url.toList with
  | some (_, rest) =>
    String.mk (rest.takeWhile (fun c => c != '/' && c != '?' && c != '#'))
  | none =>
    if seqStarts url.toList (String.toList "//") then
      String.mk ((url.toList.drop 2).takeWhile (fun c => c != '/' && c != '?' && c != '#'))
    else ""

/-- Directory part of a path: everything up to and including the last
slash, or `"/"` when the path has no slash. -/
def dirPart (path : List Char) : List Char :=
  if seqHas path ['/'] then
    ((path.reverse).dropWhile (fun c => c != '/')).reverse
  else ['/']

/-- Model of `urllib.parse.urljoin(base, rel)` for hierarchical http(s)
base URLs, covering the cases the crawler exercises: `rel` already
absolute, scheme-relative (`//…`), root-relative (`/…`), or a relative
path merged onto the base's directory. -/
def urljoin (base rel : String) : String :=
  let r := rel.toList
  if r.isEmpty then base
  else if (schemeSplit r).isSome then rel
  else
    match schemeSplit base.toList with
    | none => rel
    | some (sch, rest) =>
      let nl := rest.takeWhile (fun c => c != '/' && c != '?' && c != '#')
      let path := rest.drop nl.length
      if seqStarts r (String.toList "//") then String.mk (sch ++ (':' :: r))
      else if seqStarts r (String.toList "/") then
        String.mk (sch ++ String.toList "://" ++ nl ++ r)
      else
        String.mk (sch ++ String.toList "://" ++ nl ++ dirPart path ++ r)

/-! ## Data model (from `content_crawler.py`) -/

/-- The `ContentType` enum (source lines 33-39). -/
inductive ContentType
  | BLOG
  | GUIDE
  | TOPIC
  | SUBSTACK
  | CATEGORY
  | UNKNOWN
deriving DecidableEq

/-- The `SiteConfig` dataclass (source lines 41-59).  List fields whose
Python default is `None` are embedded as `[]` (the source only ever
iterates them or tests them for truthiness); `custom_extractors`,
`click_selectors` and the float `scroll_pause_time` are unused by the
verified logic and are omitted. -/
structure SiteConfig where
  domain : String
  content_selectors : List String
  pagination_selectors : List String
  content_patterns : List Pat
  requires_js : Bool := false
  infinite_scroll : Bool := false
  api_endpoints : List String := []
  use_playwright : Bool := false
  use_cloudscraper : Bool := false
  use_undetected : Bool := false
  max_scroll_attempts : Nat := 10
  wait_for_selectors : List String := []
  custom_headers : List (String × String) := []
  feed_urls : List String := []

/-- The `'quill.co'` entry of `self.site_configs` (source lines 70-105). -/
def quillConfig : SiteConfig :=
  { domain := "quill.co"
    content_selectors :=
      ["article a", ".blog-post a", ".post-title a",
       "a[href*=\"/blog/\"]", ".blog-list a",
       ".post-preview a", ".entry-title a",
       "[data-testid=\"blog-post-link\"]",
       ".blog-grid a", ".post-grid a"]
    pagination_selectors := [".pagination a", ".next-page", "a[rel=\"next\"]"]
    content_patterns := [Pat.segEnd "/blog/" '/']
    requires_js := true
    infinite_scroll := true
    use_playwright := true
    wait_for_selectors := [".blog-list", ".post-list", "article"]
    max_scroll_attempts := 15
    feed_urls :=
      ["/feed", "/feed.xml", "/rss", "/rss.xml", "/atom.xml", "/feed/atom",
       "/feed/rss", "/blog/feed", "/blog/feed.xml", "/blog/rss", "/blog/rss.xml"]
    custom_headers :=
      [("Accept", "text/html,application/xhtml+xml,application/xml;q=0.9,image/webp,*/*;q=0.8"),
       ("Accept-Language", "en-US,en;q=0.5"),
       ("Connection", "keep-alive")] }

/-- The `'substack.com'` entry of `self.site_configs` (source lines 106-142). -/
def substackConfig : SiteConfig :=
  { domain := "substack.com"
    content_selectors :=
      [".post-preview a", ".post-title a",
       "article a", ".entry-title a",
       ".post-list a", ".archive-item a",
       "a[href*=\"/p/\"]", ".post a",
       "[data-testid=\"post-link\"]",
       ".post-grid a"]
    pagination_selectors := [".pagination a", ".next-page"]
    content_patterns := [Pat.segEnd "/p/" '/']
    requires_js := true
    infinite_scroll := true
    use_undetected := true
    wait_for_selectors := [".post-list", ".archive-list", "article"]
    max_scroll_attempts := 20
    feed_urls :=
      ["/feed", "/feed.xml", "/rss", "/rss.xml", "/atom.xml", "/feed/atom",
       "/feed/rss", "/archive/feed", "/archive/feed.xml", "/archive/rss", "/archive/rss.xml"]
    custom_headers :=
      [("Accept", "text/html,application/xhtml+xml,application/xml;q=0.9,image/webp,*/*;q=0.8"),
       ("Accept-Language", "en-US,en;q=0.5"),
       ("Connection", "keep-alive")] }

/-- The `'interviewing.io'` entry of `self.site_configs` (source lines 143-178). -/
def interviewingConfig : SiteConfig :=
  { domain := "interviewing.io"
    content_selectors :=
      [".blog-list a", ".blog-entry a", ".post-list a",
       "article a", ".blog-item a", ".post-title a",
       "a[href*=\"/blog/\"]", ".entry-title a",
       "[data-testid=\"blog-link\"]",
       ".blog-grid a",
       "a[href^=\"/topics/\"]",
       "a[href^=\"/learn/\"]"]
    pagination_selectors := [".pagination a", ".next-page"]
    content_patterns :=
      [Pat.segEnd "/blog/" '/', Pat.segEnd "/learn/" '/', Pat.segEnd "/topics/" '#']
    requires_js := true
    api_endpoints := ["/api/blog/posts"]
    use_playwright := true
    wait_for_selectors := [".blog-list", ".post-list", "article"]
    feed_urls :=
      ["/feed", "/feed.xml", "/rss", "/rss.xml", "/atom.xml", "/feed/atom",
       "/feed/rss", "/blog/feed", "/blog/feed.xml", "/blog/rss", "/blog/rss.xml"]
    custom_headers :=
      [("Accept", "text/html,application/xhtml+xml,application/xml;q=0.9,image/webp,*/*;q=0.8"),
       ("Accept-Language", "en-US,en;q=0.5"),
       ("Connection", "keep-alive")] }

/-- The `self.site_configs` dict, as an association list in its Python
insertion order (keys are domain strings). -/
def site_configs : List (String × SiteConfig) :=
  [("quill.co", quillConfig), ("substack.com", substackConfig),
   ("interviewing.io", interviewingConfig)]

/-- The generic default `SiteConfig` built by `_get_site_config` when no
registered entry matches (source lines 689-694). -/
def genericConfig (domain : String) : SiteConfig :=
  { domain := domain
    content_selectors := ["article a", ".post a", ".blog-post a"]
    pagination_selectors := [".pagination a", ".next-page"]
    content_patterns := [Pat.segEnd "/blog/" '/', Pat.segEnd "/post/" '/'] }

/-- `ContentCrawler._get_site_config` (source lines 684-694): first
registered config whose `domain` is a substring of the given domain,
else the generic default. -/
def get_site_config (domain : String) : SiteConfig :=
  match site_configs.find? (fun kv => strContains domain kv.2.domain) with
  | some kv => kv.2
  | none => genericConfig domain

/-- Result of `_determine_content_type` (source lines 731-743).  The
Python loop `for content_type, pattern in self.site_configs.items()`
binds `content_type` to the dict KEY — a domain string — so the
function can return either such a string or a genuine `ContentType`
member; the embedding keeps both alternatives apart. -/
inductive ClassKey
  | siteKey (key : String)
  | ctKey (ct : ContentType)
deriving DecidableEq

/-- `ContentCrawler._determine_content_type` (source lines 731-743):
lowercase the URL, scan every registered site's `content_patterns`
(cross-site, dict order), returning the matching entry's dict key;
otherwise fall back to the `"blog"`/`"posts"` substring test, else
UNKNOWN. -/
def determine_content_type (url : String) : ClassKey :=
  let u := lowerStr url
  match site_configs.find? (fun kv => kv.2.content_patterns.any (fun p => patMatch p u)) with
  | some kv => ClassKey.siteKey kv.1
  | none =>
    if strContains u "blog" || strContains u "posts" then ClassKey.ctKey ContentType.BLOG
    else ClassKey.ctKey ContentType.UNKNOWN

/-! ## Crawl state and the shared URL-validity check -/

/-- The crawler's mutable state: `self.visited_urls` and
`self.content_urls` (source lines 65-66).  Both are created in
`__init__`, not in `crawl`. -/
structure CrawlState where
  visited : Finset String
  content_urls : ContentType → Finset String

/-- The state a freshly constructed `ContentCrawler` carries
(`__init__`, source lines 65-66): empty visited set, every
`ContentType` bucket empty. -/
def freshState : CrawlState :=
  { visited := (∅ : Finset String), content_urls := fun _ => (∅ : Finset String) }

/-- `ContentCrawler._is_valid_content_url` (source lines 696-708):
reject empty or already-visited URLs, otherwise mark the URL visited
and accept iff some `content_patterns` entry matches. -/
def is_valid_content_url (url : String) (cfg : SiteConfig) (st : CrawlState) :
    Bool × CrawlState :=
  if url = "" ∨ url ∈ st.visited then (false, st)
  else
    (cfg.content_patterns.any (fun p => patMatch p url),
     { st with visited := insert url st.visited })

/-- Replace every occurrence of a nonempty `needle` by `repl`, left to
right without overlap; the fuel argument (instantiated with the input
length) only makes the recursion structural. -/
def replaceFuel (needle repl : List Char) : Nat → List Char → List Char
  | 0, l => l
  | _ + 1, [] => []
  | fuel + 1, c :: cs =>
    if seqStarts (c :: cs) needle && !needle.isEmpty then
      repl ++ replaceFuel needle repl fuel (cs.drop (needle.length - 1))
    else c :: replaceFuel needle repl fuel cs

/-- Model of Python `pattern.format(page=page)` for templates whose only
placeholder is `{page}`: substitute the page number everywhere. -/
def strReplace (s needle repl : String) : String :=
  String.mk (replaceFuel needle.toList repl.toList s.toList.length s.toList)

/-- `ContentCrawler._get_next_page_url` (source lines 710-715): the
first `pagination_selectors` entry containing `"{page}"` has the page
number substituted (`str.format`) and is joined against the base URL;
no such entry gives `None`. -/
def get_next_page_url (base_url : String) (page : Nat) (cfg : SiteConfig) :
    Option String :=
  match cfg.pagination_selectors.find? (fun p => strContains p "{page}") with
  | some p => some (urljoin base_url (strReplace p "{page}" (toString page)))
  | none => none

/-! ## Static-fetch strategy (`_crawl_with_requests`, source lines 646-682)

External HTTP is a parameter: `fetch url` is `none` when the GET fails
or returns a non-200 status, and `some doc` otherwise, where `doc`
plays the parsed page: `doc selector` is the list of `href` attribute
values that `soup.select(selector)` yields (elements lacking an `href`
are skipped by the source's `if href` guard and are not listed). -/

/-- A fetched, parsed document: CSS selector to harvested hrefs. -/
abbrev Doc := String → List String

/-- The inner harvest over one selector's hrefs: `if href and
self._is_valid_content_url(href, cfg): urls.add(href)`. -/
def harvestHrefs (cfg : SiteConfig) : List String → CrawlState → Finset String →
    Finset String × CrawlState
  | [], st, acc => (acc, st)
  | h :: rest, st, acc =>
    if h = "" then harvestHrefs cfg rest st acc
    else
      let r := is_valid_content_url h cfg st
      harvestHrefs cfg rest r.2 (if r.1 then insert h acc else acc)

/-- The harvest over all of a config's `content_selectors`, in order. -/
def harvestSelectors (doc : Doc) (cfg : SiteConfig) : List String → CrawlState →
    Finset String → Finset String × CrawlState
  | [], st, acc => (acc, st)
  | sel :: rest, st, acc =>
    let r := harvestHrefs cfg (doc sel) st acc
    harvestSelectors doc cfg rest r.2 r.1

/-- The pagination loop `page = 1; while page < max_pages: ...` shared
by the request/browser strategies.  `fuel` is `max_pages - page`; the
third component records, for audit, the page indices for which a next
URL was synthesized (a non-200 paginated fetch still advances `page`,
as in the source). -/
def pageLoop (fetch : String → Option Doc) (base : String) (cfg : SiteConfig) :
    Nat → Nat → CrawlState → Finset String → Finset String × CrawlState × List Nat
  | 0, _, st, acc => (acc, st, [])
  | fuel + 1, page, st, acc =>
    match get_next_page_url base page cfg with
    | none => (acc, st, [])
    | some nurl =>
      match fetch nurl with
      | none =>
        let t := pageLoop fetch base cfg fuel (page + 1) st acc
        (t.1, t.2.1, page :: t.2.2)
      | some doc =>
        let r := harvestSelectors doc cfg cfg.content_selectors st acc
        let t := pageLoop fetch base cfg fuel (page + 1) r.2 r.1
        (t.1, t.2.1, page :: t.2.2)

/-- `ContentCrawler._crawl_with_requests` (source lines 646-682): GET
the seed, harvest every selector, then walk synthesized pagination
URLs while `page < max_pages`.  A failed or non-200 seed fetch yields
the empty set, as in the source's status check and `except` path. -/
def crawl_with_requests (fetch : String → Option Doc) (url : String)
    (cfg : SiteConfig) (maxPages : Nat) (st : CrawlState) :
    Finset String × CrawlState × List Nat :=
  match fetch url with
  | none => ((∅ : Finset String), st, [])
  | some doc =>
    let r := harvestSelectors doc cfg cfg.content_selectors st (∅ : Finset String)
    pageLoop fetch url cfg (maxPages - 1) 1 r.2 r.1

/-! ## Infinite-scroll driver (source lines 517-547)

`_handle_infinite_scroll` (Selenium) and
`_handle_playwright_infinite_scroll` share one control flow, embedded
once.  The page is a synthetic measurement sequence `m`: `m 0` is the
initial `document.body.scrollHeight`, `m k` the height observed after
the k-th scroll.  The result counts the scroll iterations performed. -/

def scrollLoop (m : Nat → Nat) : Nat → Nat → Nat → Nat
  | 0, _, _ => 0
  | fuel + 1, last, k =>
    if m k = last then 1
    else 1 + scrollLoop m fuel (m k) (k + 1)

/-- `_handle_infinite_scroll` / `_handle_playwright_infinite_scroll`:
measure the initial height, then scroll-and-remeasure while
`attempts < max_scroll_attempts`, breaking when the height stops
changing. -/
def handle_infinite_scroll (m : Nat → Nat) (maxAttempts : Nat) : Nat :=
  scrollLoop m maxAttempts (m 0) 1

/-! ## Strategy chain and `crawl` (source lines 187-240)

The selected strategies (lines 194-208: a Quill-specific chain, or the
generic ordered list filtered by the config's flags) are abstracted as
the list argument; each strategy is its observable behaviour: from the
current crawl state, either an exception (`raise`) or a returned URL
set, together with the visited set it leaves behind (source strategies
mutate state only through `_is_valid_content_url`). -/

inductive SOutcome
  | raise
  | ret (urls : Finset String)

abbrev Strategy := CrawlState → SOutcome × Finset String

/-- `self.content_urls[ct].update(urls)`: union `urls` into one bucket. -/
def bucketAdd (ct : ContentType) (urls : Finset String)
    (f : ContentType → Finset String) : ContentType → Finset String :=
  fun ct' => if ct' = ct then f ct' ∪ urls else f ct'

/-- The `for strategy in strategies` loop of `crawl` (source lines
210-220).  A raising strategy is caught and skipped.  A non-empty
return updates `found_urls`, then merges into
`self.content_urls[self._determine_content_type(start_url)]` and
breaks — but when the classifier returned a site_configs dict key
(a string), that subscript raises `KeyError`, which the same `except`
catches, so the loop continues with `found_urls` already updated.
Returns (found_urls, final state, number of strategies invoked). -/
def chainLoop (ck : ClassKey) : List Strategy → CrawlState → Finset String →
    Finset String × CrawlState × Nat
  | [], st, found => (found, st, 0)
  | s :: rest, st, found =>
    let r := s st
    let st1 := { st with visited := r.2 }
    match r.1 with
    | SOutcome.raise =>
      let t := chainLoop ck rest st1 found
      (t.1, t.2.1, t.2.2 + 1)
    | SOutcome.ret urls =>
      if urls = (∅ : Finset String) then
        let t := chainLoop ck rest st1 found
        (t.1, t.2.1, t.2.2 + 1)
      else
        match ck with
        | ClassKey.ctKey ct =>
          (found ∪ urls, { st1 with content_urls := bucketAdd ct urls st1.content_urls }, 1)
        | ClassKey.siteKey _ =>
          let t := chainLoop ck rest st1 (found ∪ urls)
          (t.1, t.2.1, t.2.2 + 1)

/-- `ContentCrawler._extract_all_links` (source lines 845-853): join
every anchor's href against the base and keep those starting with
`"http"`, as a set. -/
def extract_all_links (anchors : List String) (base : String) : Finset String :=
  ((anchors.map (fun a => urljoin base a)).filter (fun u => strStarts u "http")).toFinset

/-- The links the all-links fallback of `crawl` (source lines 222-234)
contributes: `none` models a failed or non-200 GET of the seed,
`some anchors` the page's anchor hrefs; the extracted links are then
restricted to the seed's own domain. -/
def crawlFallbackLinks (seed : String) (fb : Option (List String)) : Finset String :=
  match fb with
  | none => (∅ : Finset String)
  | some anchors =>
    (extract_all_links anchors seed).filter (fun l => netloc l = netloc seed)

/-- Dict order of `self.content_urls` (`{ct: set() for ct in ContentType}`). -/
def allContentTypes : List ContentType :=
  [ContentType.BLOG, ContentType.GUIDE, ContentType.TOPIC,
   ContentType.SUBSTACK, ContentType.CATEGORY, ContentType.UNKNOWN]

/-- The returned mapping `{ct: list(urls) for ct, urls in
self.content_urls.items() if urls}` (source line 235): only the
non-empty buckets, in dict order. -/
def resultMapping (st : CrawlState) : List (ContentType × Finset String) :=
  (allContentTypes.filter
      (fun ct => if st.content_urls ct = (∅ : Finset String) then false else true)).map
    (fun ct => (ct, st.content_urls ct))

/-- `ContentCrawler.crawl` (source lines 187-240): run the strategy
chain, then — only when `found_urls` is empty — the all-links
same-domain fallback, merging its links under the seed's classified
type (the merge under a dict-key classification `KeyError`s and is
caught, adding nothing).  Returns the non-empty buckets and the
crawler state as the call leaves it. -/
def crawl (start_url : String) (strats : List Strategy) (fb : Option (List String))
    (st0 : CrawlState) : List (ContentType × Finset String) × CrawlState :=
  let ck := determine_content_type start_url
  let c := chainLoop ck strats st0 (∅ : Finset String)
  let found := c.1
  let st1 := c.2.1
  let links := crawlFallbackLinks start_url fb
  let st2 :=
    if found = (∅ : Finset String) ∧ links ≠ (∅ : Finset String) then
      match ck with
      | ClassKey.ctKey ct => { st1 with content_urls := bucketAdd ct links st1.content_urls }
      | ClassKey.siteKey _ => st1
    else st1
  (resultMapping st2, st2)

/-! ## General lemmas about the embedding -/

/-- No content pattern in the source matches the empty string: every
regex demands a nonempty `[^x]+` run. -/
theorem patMatch_empty (p : Pat) : patMatch p "" = false := by
  cases p with
  | segEnd m e => rfl

/-- A strategy that raises, or returns the empty set, is skipped: the
chain moves on to the remaining strategies with `found_urls` unchanged,
counting one more invocation. -/
theorem chainLoop_cons_skip (ck : ClassKey) (s : Strategy) (rest : List Strategy)
    (st : CrawlState) (found : Finset String)
    (h : (s st).1 = SOutcome.raise ∨ (s st).1 = SOutcome.ret (∅ : Finset String)) :
    chainLoop ck (s :: rest) st found =
      (let t := chainLoop ck rest { st with visited := (s st).2 } found
       (t.1, t.2.1, t.2.2 + 1)) := by
  rcases h with h1 | h1 <;> simp [chainLoop, h1]

/-- A chain whose strategies all raise or return the empty set walks the
whole list, leaves `found_urls` and every bucket untouched, and invokes
each strategy exactly once. -/
theorem chainLoop_all_trivial (ck : ClassKey) :
    ∀ (strats : List Strategy) (st : CrawlState) (found : Finset String),
      (∀ s ∈ strats, ∀ st', (s st').1 = SOutcome.raise ∨ (s st').1 = SOutcome.ret (∅ : Finset String)) →
      (chainLoop ck strats st found).1 = found ∧
      (chainLoop ck strats st found).2.1.content_urls = st.content_urls ∧
      (chainLoop ck strats st found).2.2 = strats.length := by
  intro strats
  induction strats with
  | nil => intro st found _; exact ⟨rfl, rfl, rfl⟩
  | cons s rest ih =>
    intro st found h
    have hrest : ∀ s' ∈ rest, ∀ st', (s' st').1 = SOutcome.raise ∨ (s' st').1 = SOutcome.ret (∅ : Finset String) :=
      fun s' hmem => h s' (List.mem_cons_of_mem s hmem)
    have hmain := ih { st with visited := (s st).2 } found hrest
    rw [chainLoop_cons_skip ck s rest st found (h s (List.mem_cons_self s rest) st)]
    refine ⟨hmain.1, hmain.2.1, ?_⟩
    show (chainLoop ck rest { st with visited := (s st).2 } found).2.2 + 1 = rest.length + 1
    rw [hmain.2.2]

/-- A crawler state whose buckets are all empty produces the empty
result mapping. -/
theorem resultMapping_empty (st : CrawlState)
    (h : ∀ ct, st.content_urls ct = (∅ : Finset String)) : resultMapping st = [] := by
  simp [resultMapping, allContentTypes, h]

/-- When no page index ever yields a next-page URL, the pagination loop
performs no paginated fetch at all. -/
theorem pageLoop_none (fetch : String → Option Doc) (base : String) (cfg : SiteConfig)
    (hnone : ∀ p, get_next_page_url base p cfg = none) :
    ∀ fuel page st acc, pageLoop fetch base cfg fuel page st acc = (acc, st, []) := by
  intro fuel page st acc
  cases fuel with
  | zero => rfl
  | succ f => simp [pageLoop, hnone]

/-- Every page index the pagination loop synthesizes a URL for lies in
the window `[page, page + fuel)`. -/
theorem pageLoop_log_bound (fetch : String → Option Doc) (base : String) (cfg : SiteConfig) :
    ∀ fuel page st acc i, i ∈ (pageLoop fetch base cfg fuel page st acc).2.2 →
      page ≤ i ∧ i < page + fuel := by
  intro fuel
  induction fuel with
  | zero => intro page st acc i hi; simp [pageLoop] at hi
  | succ f ih =>
    intro page st acc i hi
    cases hg : get_next_page_url base page cfg with
    | none => simp [pageLoop, hg] at hi
    | some nurl =>
      cases hf : fetch nurl with
      | none =>
        simp only [pageLoop, hg, hf, List.mem_cons] at hi
        rcases hi with rfl | hi
        · omega
        · have := ih (page + 1) st acc i hi
          omega
      | some doc =>
        simp only [pageLoop, hg, hf, List.mem_cons] at hi
        rcases hi with rfl | hi
        · omega
        · have := ih (page + 1) _ _ i hi
          omega

/-- The first list entry satisfying a predicate is what `find?` finds. -/
theorem find?_first {α : Type} (p : α → Bool) (t : α) (post : List α) :
    ∀ pre : List α, (∀ q ∈ pre, p q = false) → p t = true →
      (pre ++ t :: post).find? p = some t := by
  intro pre
  induction pre with
  | nil => intro _ ht; simp [List.find?_cons_of_pos _ ht]
  | cons q qs ih =>
    intro h ht
    have hq : ¬ p q = true := by simp [h q (List.mem_cons_self q qs)]
    rw [List.cons_append, List.find?_cons_of_neg _ hq]
    exact ih (fun x hx => h x (List.mem_cons_of_mem q hx)) ht

/-- `_get_site_config` only ever produces one of the three registered
configs or the generic default. -/
theorem get_site_config_cases (d : String) :
    get_site_config d = quillConfig ∨ get_site_config d = substackConfig ∨
    get_site_config d = interviewingConfig ∨ get_site_config d = genericConfig d := by
  unfold get_site_config
  rcases hf : site_configs.find? (fun kv => strContains d kv.2.domain) with _ | kv
  · rw [hf]
    exact Or.inr (Or.inr (Or.inr rfl))
  · rw [hf]
    have hmem := List.mem_of_find?_eq_some hf
    simp only [site_configs, List.mem_cons, List.not_mem_nil, or_false] at hmem
    rcases hmem with rfl | rfl | rfl
    · exact Or.inl rfl
    · exact Or.inr (Or.inl rfl)
    · exact Or.inr (Or.inr (Or.inl rfl))

/-- No config the registry can return carries a `{page}` pagination
template, so `_get_next_page_url` is constantly `None` under them. -/
theorem next_page_url_registry_none (d base : String) (page : Nat) :
    get_next_page_url base page (get_site_config d) = none := by
  rcases get_site_config_cases d with h | h | h | h <;> rw [h] <;> rfl

/-! ## Concrete scenarios used by the claim theorems -/

/-- A strategy that returns the empty set and leaves state unchanged. -/
def c1A : Strategy := fun st => (SOutcome.ret (∅ : Finset String), st.visited)

/-- A strategy that returns one quill.co blog URL. -/
def c1B : Strategy := fun st => (SOutcome.ret {"https://quill.co/blog/a1"}, st.visited)

/-- A strategy after the first non-empty one; the claim expects it to
never run. -/
def c1C : Strategy := fun st => (SOutcome.ret {"https://quill.co/blog/a2"}, st.visited)

/-- A page for the spec's end-to-end static-fetch scenario: anchors
`/blog/post-1`, `/blog/post-2`, `/about` under the generic config's
first selector. -/
def doc4 : Doc := fun sel =>
  if sel = "article a" then ["/blog/post-1", "/blog/post-2", "/about"] else []

/-- The fetch environment serving `doc4` at the scenario's seed URL. -/
def fetch4 : String → Option Doc := fun u =>
  if u = "https://example.com/blog/" then some doc4 else none

/-- The static-fetch strategy (`_crawl_with_requests`) run against
`fetch4`, packaged in the chain interface. -/
def strat4 : Strategy := fun st =>
  let r := crawl_with_requests fetch4 "https://example.com/blog/" (get_site_config "example.com") 10 st
  (SOutcome.ret r.1, r.2.1.visited)

/-- A fetch environment whose seed page links one blog post. -/
def fetchBlog1 : String → Option Doc := fun u =>
  if u = "https://example.com/blog/" then
    some (fun sel => if sel = "article a" then ["/blog/post-1"] else [])
  else none

/-- The static-fetch strategy over `fetchBlog1`, used for two successive
crawl invocations on one crawler. -/
def stratReq1 : Strategy := fun st =>
  let r := crawl_with_requests fetchBlog1 "https://example.com/blog/" (get_site_config "example.com") 10 st
  (SOutcome.ret r.1, r.2.1.visited)

/-- The crawler state left behind by the first of two successive crawl
invocations on one crawler instance. -/
def c2SecondState : CrawlState :=
  (crawl "https://example.com/blog/" [stratReq1] none freshState).2

/-! ## Claim theorems -/

/-- C1: the claim says the first strategy returning a non-empty set
wins, the chain stops, later strategies have call count zero, and the
returned bucket equals the winning set.  The code violates this for
every seed URL whose classification hits a `content_patterns` match:
`_determine_content_type` then returns the `site_configs` dict key (a
string), `self.content_urls[key]` raises `KeyError` inside the
strategy loop's `try`, and the chain continues.  At seed
`https://quill.co/blog/team` with chain `[c1A, c1B, c1C]` (`c1A` empty,
`c1B` non-empty), all three strategies are invoked (count 3, so `c1C`'s
call count is 1, not 0) and the returned mapping is empty rather than
holding `c1B`'s set. -/
theorem C1_keyerror_breaks_chain :
    determine_content_type "https://quill.co/blog/team" = ClassKey.siteKey "quill.co"
  ∧ (chainLoop (determine_content_type "https://quill.co/blog/team")
      [c1A, c1B, c1C] freshState (∅ : Finset String)).2.2 = 3
  ∧ (chainLoop (determine_content_type "https://quill.co/blog/team")
      [c1A, c1B, c1C] freshState (∅ : Finset String)).1
      = ({"https://quill.co/blog/a1", "https://quill.co/blog/a2"} : Finset String)
  ∧ (crawl "https://quill.co/blog/team" [c1A, c1B, c1C] none freshState).1 = [] := by
  exact ⟨by decide, by decide, by decide, by decide⟩

/-- C3: the claim says the classifier maps every URL into the closed
`ContentType` enumeration.  On a URL matching a registered site's
content pattern the code instead returns the `site_configs` dict key —
the domain string `"quill.co"` — contradicting the function's own
`-> ContentType` annotation. -/
theorem C3_classifier_returns_dict_key :
    determine_content_type "https://quill.co/blog/post-1" = ClassKey.siteKey "quill.co" := by
  decide

/-- C2 counterexample: crawl state persists across crawl invocations on
one crawler.  After a first crawl discovers `/blog/post-1`, a second
crawl over the same environment finds nothing itself (its static-fetch
strategy returns the empty set because the URL is already in the
persisted visited set), yet the second crawl still returns the first
crawl's bucket — refuting both the visited-isolation and the
returned-mapping-isolation parts of the claim. -/
theorem C2_counterexample :
    (crawl "https://example.com/blog/" [stratReq1] none freshState).1
      = [(ContentType.BLOG, ({"/blog/post-1"} : Finset String))]
  ∧ (crawl_with_requests fetchBlog1 "https://example.com/blog/"
      (get_site_config "example.com") 10 c2SecondState).1 = (∅ : Finset String)
  ∧ (crawl "https://example.com/blog/" [stratReq1] none c2SecondState).1
      = [(ContentType.BLOG, ({"/blog/post-1"} : Finset String))] := by
  exact ⟨by decide, by decide, by decide⟩

/-- C2 (amended): `visited` and `byType` live in the crawler instance,
not in the crawl invocation: `crawl` threads the incoming state without
resetting it, so a crawl whose strategies and fallback contribute
nothing returns exactly the buckets accumulated by earlier crawls, and
a URL placed in `visited` by an earlier crawl is rejected by the
validity check in every later crawl. -/
theorem C2_amended_state_persistence :
    (∀ seed fb st0, crawlFallbackLinks seed fb = (∅ : Finset String) →
        crawl seed [] fb st0 = (resultMapping st0, st0))
  ∧ (∀ url cfg st, url ∈ st.visited → (is_valid_content_url url cfg st).1 = false) := by
  constructor
  · intro seed fb st0 h
    simp [crawl, chainLoop, h]
  · intro url cfg st h
    simp [is_valid_content_url, h]

/-- Witness for the amended C2 theorem at concrete inputs. -/
theorem C2_amended_witness :
    crawl "https://example.org/blog" [] none freshState = (resultMapping freshState, freshState)
  ∧ (is_valid_content_url "/blog/x" (genericConfig "example.org")
      { visited := {"/blog/x"}, content_urls := fun _ => (∅ : Finset String) }).1 = false := by
  constructor
  · exact C2_amended_state_persistence.1 "https://example.org/blog" none freshState rfl
  · exact C2_amended_state_persistence.2 "/blog/x" (genericConfig "example.org")
      { visited := {"/blog/x"}, content_urls := fun _ => (∅ : Finset String) } (by decide)

/-- C4 counterexample: in the spec's end-to-end static-fetch scenario
the code does NOT resolve relative hrefs against the base URL —
`_crawl_with_requests` adds the raw `href` attribute values — so the
blog bucket is not the claimed absolute-URL set. -/
theorem C4_counterexample :
    (crawl "https://example.com/blog/" [strat4] none freshState).1
      ≠ [(ContentType.BLOG,
          ({"https://example.com/blog/post-1", "https://example.com/blog/post-2"} : Finset String))] := by
  decide

/-- C4 (amended): a strategy execution returns the harvested href
strings verbatim (relative hrefs are not resolved against the base
URL): the scenario yields `{blog: {"/blog/post-1", "/blog/post-2"}}`,
with `/about` excluded by the content-pattern check. -/
theorem C4_amended_no_resolution :
    (crawl "https://example.com/blog/" [strat4] none freshState).1
      = [(ContentType.BLOG, ({"/blog/post-1", "/blog/post-2"} : Finset String))]
  ∧ "/about" ∉ (crawl "https://example.com/blog/" [strat4] none freshState).2.content_urls ContentType.BLOG
  ∧ "https://example.com/blog/post-1"
      ∉ (crawl "https://example.com/blog/" [strat4] none freshState).2.content_urls ContentType.BLOG := by
  exact ⟨by decide, by decide, by decide⟩

/-- C5: the shared URL-validity check accepts a URL iff it has not
already been judged in this crawl and some configured content pattern
matches, and a second evaluation of the same URL within one crawl is
always rejected. -/
theorem C5_validity_check (url : String) (cfg : SiteConfig) (st : CrawlState) :
    ((is_valid_content_url url cfg st).1 = true ↔
      (url ∉ st.visited ∧ cfg.content_patterns.any (fun p => patMatch p url) = true))
  ∧ (is_valid_content_url url cfg (is_valid_content_url url cfg st).2).1 = false := by
  constructor
  · by_cases h0 : url = ""
    · subst h0
      simp [is_valid_content_url, patMatch_empty]
    · by_cases h1 : url ∈ st.visited
      · simp [is_valid_content_url, h0, h1]
      · simp [is_valid_content_url, h0, h1]
  · by_cases h0 : url = ""
    · subst h0
      simp [is_valid_content_url]
    · by_cases h1 : url ∈ st.visited
      · simp [is_valid_content_url, h0, h1]
      · simp [is_valid_content_url, h0, h1]

/-- Witness for C5 at a concrete URL, config and state. -/
theorem C5_witness :
    (is_valid_content_url "/blog/a" (get_site_config "example.com") freshState).1 = true
  ∧ (is_valid_content_url "/blog/a" (get_site_config "example.com")
      (is_valid_content_url "/blog/a" (get_site_config "example.com") freshState).2).1 = false := by
  constructor
  · exact (C5_validity_check "/blog/a" (get_site_config "example.com") freshState).1.mpr
      ⟨by decide, by decide⟩
  · exact (C5_validity_check "/blog/a" (get_site_config "example.com") freshState).2

/-- C6: a raising strategy is skipped without aborting the chain
(continuing with `found_urls` unchanged); when every strategy raises or
returns empty and the same-domain fallback contributes nothing, a crawl
on a fresh crawler returns the empty mapping without error; and the
returned mapping only ever contains non-empty buckets. -/
theorem C6_error_containment :
    (∀ ck (s : Strategy) rest st found, (s st).1 = SOutcome.raise →
        chainLoop ck (s :: rest) st found
          = (let t := chainLoop ck rest { st with visited := (s st).2 } found
             (t.1, t.2.1, t.2.2 + 1)))
  ∧ (∀ seed strats fb st0,
        (∀ s ∈ strats, ∀ st', (s st').1 = SOutcome.raise ∨ (s st').1 = SOutcome.ret (∅ : Finset String)) →
        (∀ ct, st0.content_urls ct = (∅ : Finset String)) →
        crawlFallbackLinks seed fb = (∅ : Finset String) →
        (crawl seed strats fb st0).1 = [])
  ∧ (∀ st ct b, (ct, b) ∈ resultMapping st → b ≠ (∅ : Finset String)) := by
  refine ⟨?_, ?_, ?_⟩
  · intro ck s rest st found h1
    exact chainLoop_cons_skip ck s rest st found (Or.inl h1)
  · intro seed strats fb st0 hstr hbuck hlinks
    have h3 := chainLoop_all_trivial (determine_content_type seed) strats st0 (∅ : Finset String) hstr
    simp only [crawl, hlinks, ne_eq, not_true_eq_false, and_false, if_false]
    exact resultMapping_empty _ (fun ct => by rw [h3.2.1]; exact hbuck ct)
  · intro st ct b hmem
    simp only [resultMapping, List.mem_map, List.mem_filter] at hmem
    rcases hmem with ⟨ct', ⟨_, hcond⟩, heq⟩
    injection heq with e1 e2
    subst e1
    subst e2
    intro hz
    simp [hz] at hcond

/-- Witness for C6: a chain consisting of one raising strategy on a
fresh crawler, with a failing fallback fetch, returns the empty
mapping. -/
theorem C6_witness :
    (crawl "https://nosite.example/page" [fun st => (SOutcome.raise, st.visited)] none freshState).1
      = [] := by
  exact C6_error_containment.2.1 "https://nosite.example/page"
    [fun st => (SOutcome.raise, st.visited)] none freshState
    (fun s hs st' => by
      rw [List.mem_singleton.mp hs]
      exact Or.inl rfl)
    (fun ct => rfl) rfl

/-- C7: templated pagination substitutes the page index into the first
template containing a `{page}` placeholder, joined against the base
URL; with no placeholder anywhere it synthesizes nothing; and the
pagination loop only ever synthesizes next-page URLs for page indices
strictly below the crawl's `max_pages` ceiling. -/
theorem C7_templated_pagination (base : String) (page : Nat) (cfg : SiteConfig) :
    ((∀ t ∈ cfg.pagination_selectors, strContains t "{page}" = false) →
        get_next_page_url base page cfg = none)
  ∧ (∀ pre t post, cfg.pagination_selectors = pre ++ t :: post →
        (∀ q ∈ pre, strContains q "{page}" = false) →
        strContains t "{page}" = true →
        get_next_page_url base page cfg
          = some (urljoin base (strReplace t "{page}" (toString page))))
  ∧ (∀ fetch st maxPages i,
        i ∈ (crawl_with_requests fetch base cfg maxPages st).2.2 →
        1 ≤ i ∧ i < maxPages) := by
  refine ⟨?_, ?_, ?_⟩
  · intro h
    unfold get_next_page_url
    rw [List.find?_eq_none.mpr (fun t ht => by simp [h t ht])]
  · intro pre t post hdec hpre ht
    unfold get_next_page_url
    rw [hdec, find?_first _ t post pre hpre ht]
  · intro fetch st maxP i hi
    cases hf : fetch base with
    | none =>
      simp only [crawl_with_requests, hf] at hi
      simp at hi
    | some doc =>
      simp only [crawl_with_requests, hf] at hi
      have hb := pageLoop_log_bound fetch base cfg (maxP - 1) 1 _ _ i hi
      obtain ⟨hb1, hb2⟩ := hb
      omega

/-- A config carrying one genuine `{page}` pagination template, to
exercise the substitution path. -/
def cfgTemplated : SiteConfig :=
  { domain := "example.com"
    content_selectors := ["article a"]
    pagination_selectors := ["/blog/page/{page}"]
    content_patterns := [Pat.segEnd "/blog/" '/'] }

/-- Witness for C7: page index 2 substituted into the template and
resolved against the base URL. -/
theorem C7_witness :
    get_next_page_url "https://example.com/blog/" 2 cfgTemplated
      = some "https://example.com/blog/page/2" := by
  have h := (C7_templated_pagination "https://example.com/blog/" 2 cfgTemplated).2.1
      [] "/blog/page/{page}" [] rfl (by simp) (by decide)
  exact h.trans (by decide)

/-- The scroll loop never performs more iterations than its fuel. -/
theorem scrollLoop_le (m : Nat → Nat) : ∀ fuel last k, scrollLoop m fuel last k ≤ fuel := by
  intro fuel
  induction fuel with
  | zero => intro last k; simp [scrollLoop]
  | succ f ih =>
    intro last k
    simp only [scrollLoop]
    by_cases h : m k = last
    · simp [h]
    · simp only [h, if_false]
      have := ih (m k) (k + 1)
      omega

/-- While no two consecutive measurements agree inside the window, the
scroll loop consumes its entire budget. -/
theorem scrollLoop_exhaust (m : Nat → Nat) :
    ∀ fuel k, 0 < k → (∀ j, k ≤ j → j < k + fuel → m j ≠ m (j - 1)) →
      scrollLoop m fuel (m (k - 1)) k = fuel := by
  intro fuel
  induction fuel with
  | zero => intro k _ _; simp [scrollLoop]
  | succ f ih =>
    intro k hk h
    have hne : m k ≠ m (k - 1) := h k (le_refl k) (by omega)
    simp only [scrollLoop, hne, if_false]
    have hrec : scrollLoop m f (m k) (k + 1) = f := by
      have hrw : m k = m ((k + 1) - 1) := by simp
      rw [hrw]
      exact ih (k + 1) (by omega) (fun j hj1 hj2 => h j (by omega) (by omega))
    omega

/-- The scroll loop stops at the first stable measurement inside its
budget window. -/
theorem scrollLoop_stable (m : Nat → Nat) :
    ∀ fuel k k0, 0 < k → k ≤ k0 → k0 < k + fuel → m k0 = m (k0 - 1) →
      (∀ j, k ≤ j → j < k0 → m j ≠ m (j - 1)) →
      scrollLoop m fuel (m (k - 1)) k = k0 - k + 1 := by
  intro fuel
  induction fuel with
  | zero => intro k k0 hk hle hlt _ _; exact absurd hle (by omega)
  | succ f ih =>
    intro k k0 hk hle hlt hstab h
    by_cases hkk : k = k0
    · subst hkk
      simp only [scrollLoop, hstab, if_true]
      omega
    · have hne : m k ≠ m (k - 1) := h k (le_refl k) (by omega)
      simp only [scrollLoop, hne, if_false]
      have hrec : scrollLoop m f (m k) (k + 1) = k0 - (k + 1) + 1 := by
        have hrw : m k = m ((k + 1) - 1) := by simp
        rw [hrw]
        exact ih (k + 1) k0 (by omega) (by omega) (by omega) hstab
          (fun j hj1 hj2 => h j (by omega) hj2)
      omega

/-- C8: for every synthetic height sequence the infinite-scroll driver
performs at most `max_scroll_attempts` scroll iterations; it stops
exactly at the first index where two consecutive measurements agree
when that happens within the budget, and exhausts the whole budget when
no two consecutive measurements inside it agree — both termination
paths. -/
theorem C8_infinite_scroll (m : Nat → Nat) (maxA : Nat) :
    handle_infinite_scroll m maxA ≤ maxA
  ∧ (∀ k0, 0 < k0 → k0 ≤ maxA → m k0 = m (k0 - 1) →
      (∀ j, 0 < j → j < k0 → m j ≠ m (j - 1)) →
      handle_infinite_scroll m maxA = k0)
  ∧ ((∀ j, 0 < j → j ≤ maxA → m j ≠ m (j - 1)) →
      handle_infinite_scroll m maxA = maxA) := by
  refine ⟨scrollLoop_le m maxA (m 0) 1, ?_, ?_⟩
  · intro k0 h0 hle hstab h
    unfold handle_infinite_scroll
    have hrw : m 0 = m (1 - 1) := by simp
    rw [hrw]
    have := scrollLoop_stable m maxA 1 k0 (by omega) (by omega) (by omega) hstab
      (fun j hj1 hj2 => h j (by omega) hj2)
    rw [this]
    omega
  · intro h
    unfold handle_infinite_scroll
    have hrw : m 0 = m (1 - 1) := by simp
    rw [hrw]
    exact scrollLoop_exhaust m maxA 1 (by omega) (fun j hj1 hj2 => h j (by omega) (by omega))

/-- Witness for C8: a constant height sequence stops after one scroll
(stability path); a strictly growing one exhausts the budget. -/
theorem C8_witness :
    handle_infinite_scroll (fun _ => 0) 5 = 1
  ∧ handle_infinite_scroll (fun k => k) 4 = 4 := by
  constructor
  · exact (C8_infinite_scroll (fun _ => 0) 5).2.1 1 (by omega) (by omega) rfl
      (fun j h1 h2 => absurd h1 (by omega))
  · exact (C8_infinite_scroll (fun k => k) 4).2.2
      (fun j h1 h2 => show j ≠ j - 1 by omega)

/-- Registry lookup: an entry whose domain key is contained in the
queried domain wins. -/
theorem find?_dom_pos (d k : String) (c : SiteConfig) (l : List (String × SiteConfig))
    (hd : c.domain = k) (h : strContains d k = true) :
    List.find? (fun kv => strContains d kv.2.domain) ((k, c) :: l) = some (k, c) :=
  List.find?_cons_of_pos l (by simp [hd, h])

/-- Registry lookup: an entry whose domain key is not contained in the
queried domain is passed over. -/
theorem find?_dom_neg (d k : String) (c : SiteConfig) (l : List (String × SiteConfig))
    (hd : c.domain = k) (h : strContains d k = false) :
    List.find? (fun kv => strContains d kv.2.domain) ((k, c) :: l)
      = List.find? (fun kv => strContains d kv.2.domain) l :=
  List.find?_cons_of_neg l (by simp [hd, h])

/-- C9: config resolution never fails and is first-substring-match:
each registered domain key that is contained in the queried domain (in
registry order) wins, and an unmatched domain gets the built-in generic
default with its three minimal selectors and two content patterns. -/
theorem C9_registry (d : String) :
    (strContains d "quill.co" = true → get_site_config d = quillConfig)
  ∧ (strContains d "quill.co" = false → strContains d "substack.com" = true →
      get_site_config d = substackConfig)
  ∧ (strContains d "quill.co" = false → strContains d "substack.com" = false →
      strContains d "interviewing.io" = true → get_site_config d = interviewingConfig)
  ∧ (strContains d "quill.co" = false → strContains d "substack.com" = false →
      strContains d "interviewing.io" = false →
      get_site_config d = genericConfig d
        ∧ (genericConfig d).content_patterns.length = 2
        ∧ (genericConfig d).content_selectors.length = 3) := by
  refine ⟨?_, ?_, ?_, ?_⟩
  · intro h1
    unfold get_site_config site_configs
    rw [find?_dom_pos d "quill.co" quillConfig _ rfl h1]
  · intro h1 h2
    unfold get_site_config site_configs
    rw [find?_dom_neg d "quill.co" quillConfig _ rfl h1,
        find?_dom_pos d "substack.com" substackConfig _ rfl h2]
  · intro h1 h2 h3
    unfold get_site_config site_configs
    rw [find?_dom_neg d "quill.co" quillConfig _ rfl h1,
        find?_dom_neg d "substack.com" substackConfig _ rfl h2,
        find?_dom_pos d "interviewing.io" interviewingConfig _ rfl h3]
  · intro h1 h2 h3
    refine ⟨?_, rfl, rfl⟩
    unfold get_site_config site_configs
    rw [find?_dom_neg d "quill.co" quillConfig _ rfl h1,
        find?_dom_neg d "substack.com" substackConfig _ rfl h2,
        find?_dom_neg d "interviewing.io" interviewingConfig _ rfl h3]
    rfl

/-- Witness for C9: a substack subdomain resolves to the substack
config; an unknown domain resolves to the generic default. -/
theorem C9_witness :
    get_site_config "blog.substack.com" = substackConfig
  ∧ get_site_config "nosite.org" = genericConfig "nosite.org" := by
  constructor
  · exact (C9_registry "blog.substack.com").2.1 (by decide) (by decide)
  · exact ((C9_registry "nosite.org").2.2.2 (by decide) (by decide) (by decide)).1

/-- C10: no config the registry can resolve — the three built-in ones
or the generic default — carries a `{page}` pagination template, so
`_get_next_page_url` returns `None` for every base URL and page index
under them, and the (shared) pagination loop of a strategy performs no
paginated fetch: only the first page is harvested. -/
theorem C10_no_page_placeholder (d base : String) (page : Nat) :
    get_next_page_url base page (get_site_config d) = none
  ∧ (get_site_config d).pagination_selectors.all (fun p => !(strContains p "{page}")) = true
  ∧ (∀ fetch st maxPages, crawl_with_requests fetch base (get_site_config d) maxPages st
      = match fetch base with
        | none => ((∅ : Finset String), st, [])
        | some doc =>
          ((harvestSelectors doc (get_site_config d) (get_site_config d).content_selectors st (∅ : Finset String)).1,
           (harvestSelectors doc (get_site_config d) (get_site_config d).content_selectors st (∅ : Finset String)).2,
           [])) := by
  refine ⟨next_page_url_registry_none d base page, ?_, ?_⟩
  · rcases get_site_config_cases d with h | h | h | h <;> rw [h] <;> rfl
  · intro fetch st maxP
    cases hf : fetch base with
    | none => simp only [crawl_with_requests, hf]
    | some doc =>
      simp only [crawl_with_requests, hf]
      rw [pageLoop_none fetch base (get_site_config d)
          (fun p => next_page_url_registry_none d base p) (maxP - 1) 1 _ _]
